import Mathlib

/-!
Verification of the TradingAgentsWithUI CLI layer.

Shallow embedding of the interactive prompt functions in src/cli/utils.py,
the default configuration mapping in src/tradingagents/default_config.py and
the configuration assembly in src/main.py.

Interactive prompts (questionary .ask calls) are modelled by passing the
response of each prompt as an explicit argument of type Option: none models
a cancelled prompt returning None. A function that calls exit(1) is modelled
as returning Except.error 1; a normal return of v is Except.ok v.

Character-level Python semantics (str.strip, str.upper, str.lower, \d in
regular expressions, string truthiness) is modelled at the ASCII level.
-/

/-- Python str truthiness check for characters counted as whitespace by the
default str.strip: space, tab, newline, carriage return, vertical tab and
form feed (ASCII whitespace). -/
def pyIsSpace (c : Char) : Bool :=
  c.toNat == 32 || c.toNat == 9 || c.toNat == 10 || c.toNat == 13 ||
  c.toNat == 11 || c.toNat == 12

/-- Python str.strip on a list of characters: drop whitespace from both ends. -/
def pyStripList (l : List Char) : List Char :=
  (((l.dropWhile pyIsSpace).reverse).dropWhile pyIsSpace).reverse

/-- Python str.strip. -/
def pyStrip (s : String) : String := String.mk (pyStripList s.data)

/-- Python str.upper on one character, at the ASCII level: letters a-z
(codes 97-122) map to A-Z (codes 65-90), everything else is unchanged. -/
def pyUpperChar (c : Char) : Char :=
  if h : 97 ≤ c.toNat ∧ c.toNat ≤ 122 then
    ⟨⟨BitVec.ofNatLt (c.toNat - 32) (by omega)⟩, Or.inl (show c.toNat - 32 < 55296 by omega)⟩
  else c

/-- Python str.upper (ASCII level). -/
def pyUpper (s : String) : String := String.mk (s.data.map pyUpperChar)

/-- Python str.lower on one character, at the ASCII level: letters A-Z
(codes 65-90) map to a-z (codes 97-122), everything else is unchanged. -/
def pyLowerChar (c : Char) : Char :=
  if h : 65 ≤ c.toNat ∧ c.toNat ≤ 90 then
    ⟨⟨BitVec.ofNatLt (c.toNat + 32) (by omega)⟩, Or.inl (show c.toNat + 32 < 55296 by omega)⟩
  else c

/-- Python str.lower (ASCII level). -/
def pyLower (s : String) : String := String.mk (s.data.map pyLowerChar)

/-- Characters that are ASCII lowercase letters (codes 97-122). -/
def isLowerAscii (c : Char) : Bool := decide (97 ≤ c.toNat) && decide (c.toNat ≤ 122)

/-- Numeric value of an ASCII digit character. -/
def digitVal (c : Char) : Nat := c.toNat - 48

/- ------------------------------------------------------------------
   src/cli/utils.py, get_analysis_date (lines 44-74): the validate_date
   closure and the embedding of the Python regex and strptime semantics.
   ------------------------------------------------------------------ -/

/-- Shape check of the body of the regex \d\x7b4\x7d-\d\x7b2\x7d-\d\x7b2\x7d:
exactly four digits, a dash, two digits, a dash, two digits. -/
def dateShape : List Char → Bool
  | [y1, y2, y3, y4, s1, m1, m2, s2, d1, d2] =>
    y1.isDigit && y2.isDigit && y3.isDigit && y4.isDigit && s1 == '-' &&
    m1.isDigit && m2.isDigit && s2 == '-' && d1.isDigit && d2.isDigit
  | _ => false

/-- Python re.match with the anchored date pattern of validate_date
(utils.py line 50). The final dollar anchor of a Python pattern also
matches just before one trailing newline, so a string consisting of the
date shape followed by a single final newline is matched as well. -/
def dateRegexMatch (s : String) : Bool :=
  dateShape s.data ||
  (s.data.getLast? == some '\n' && dateShape s.data.dropLast)

/-- Day group of the strptime format regex, alternatives in order
3[01] or [12]d or 0[1-9] or [1-9], which must consume the whole rest of
the input (strptime rejects unconverted trailing data). -/
def dayEnd : List Char → Option Nat
  | [c1, c2] =>
    if c1 == '3' && (c2 == '0' || c2 == '1') then some (30 + digitVal c2)
    else if (c1 == '1' || c1 == '2') && c2.isDigit then some (10 * digitVal c1 + digitVal c2)
    else if c1 == '0' && (49 ≤ c2.toNat && c2.toNat ≤ 57) then some (digitVal c2)
    else none
  | [c1] => if 49 ≤ c1.toNat && c1.toNat ≤ 57 then some (digitVal c1) else none
  | _ => none

/-- Literal dash of the strptime format followed by the day group. -/
def contDashDay : List Char → Option Nat
  | c :: r => if c == '-' then dayEnd r else none
  | [] => none

/-- Month group of the strptime format regex (alternatives in order
1[0-2] or 0[1-9] or [1-9]) followed by a dash and the day group, with
regex backtracking: when a two-character month alternative matches but
the continuation fails, the single-character alternative is retried. -/
def monthDashDayEnd : List Char → Option (Nat × Nat)
  | c1 :: c2 :: rest =>
    let two : Option Nat :=
      if c1 == '1' && (c2 == '0' || c2 == '1' || c2 == '2') then some (10 + digitVal c2)
      else if c1 == '0' && (49 ≤ c2.toNat && c2.toNat ≤ 57) then some (digitVal c2)
      else none
    (match two with
     | some m =>
       match contDashDay rest with
       | some d => some (m, d)
       | none =>
         if 49 ≤ c1.toNat && c1.toNat ≤ 57 then
           match contDashDay (c2 :: rest) with
           | some d => some (digitVal c1, d)
           | none => none
         else none
     | none =>
       if 49 ≤ c1.toNat && c1.toNat ≤ 57 then
         match contDashDay (c2 :: rest) with
         | some d => some (digitVal c1, d)
         | none => none
       else none)
  | [_] => none
  | [] => none

/-- The full regex that CPython compiles for the strptime format Y-m-d:
a four-digit year group, a literal dash, then month, dash and day, with
no input left over. Returns the captured numeric fields. -/
def strptimeYmdParse : List Char → Option (Nat × Nat × Nat)
  | y1 :: y2 :: y3 :: y4 :: rest =>
    if y1.isDigit && y2.isDigit && y3.isDigit && y4.isDigit then
      match rest with
      | c :: r =>
        if c == '-' then
          match monthDashDayEnd r with
          | some (m, d) =>
            some (1000 * digitVal y1 + 100 * digitVal y2 + 10 * digitVal y3 + digitVal y4, m, d)
          | none => none
        else none
      | [] => none
    else none
  | _ => none

/-- Gregorian leap-year rule used by Python's datetime. -/
def isleapYear (y : Nat) : Bool := y % 4 == 0 && (y % 100 != 0 || y % 400 == 0)

/-- Length of a month as validated by Python's datetime constructor. -/
def daysInMonth (y m : Nat) : Nat :=
  if m == 2 then (if isleapYear y then 29 else 28)
  else if m == 4 || m == 6 || m == 9 || m == 11 then 30 else 31

/-- Range checks of the datetime constructor: MINYEAR 1 to MAXYEAR 9999,
month 1 to 12 and day 1 to the length of the month. -/
def dateFieldsOk (y m d : Nat) : Bool :=
  decide (1 ≤ y) && decide (y ≤ 9999) && decide (1 ≤ m) && decide (m ≤ 12) &&
  decide (1 ≤ d) && decide (d ≤ daysInMonth y m)

/-- Python datetime.strptime with format Y-m-d succeeds exactly when the
format regex matches the whole string and the captured fields pass the
datetime constructor's range checks. -/
def strptimeOk (s : String) : Bool :=
  match strptimeYmdParse s.data with
  | some (y, m, d) => dateFieldsOk y m d
  | none => false

/-- The validate_date closure of get_analysis_date (utils.py lines 49-56):
reject unless the anchored regex matches, then return whether strptime
parses the string as a calendar date. -/
def validate_date (date_str : String) : Bool :=
  if !(dateRegexMatch date_str) then false
  else strptimeOk date_str

/- ------------------------------------------------------------------
   Prompt functions of src/cli/utils.py. The response of each
   questionary prompt is an explicit Option argument.
   ------------------------------------------------------------------ -/

/-- The get_ticker prompt (utils.py lines 24-41): exit(1) when the response
is None or the empty string (Python falsy), otherwise return the response
stripped and uppercased. -/
def get_ticker (resp : Option String) : Except Nat String :=
  match resp with
  | none => Except.error 1
  | some ticker =>
    if ticker == "" then Except.error 1
    else Except.ok (pyUpper (pyStrip ticker))

/-- The get_analysis_date prompt (utils.py lines 44-74): exit(1) when the
response is None or the empty string, otherwise return the response
stripped. The questionary validator only admits responses whose stripped
form passes validate_date; that contract is a hypothesis of the theorems. -/
def get_analysis_date (resp : Option String) : Except Nat String :=
  match resp with
  | none => Except.error 1
  | some date =>
    if date == "" then Except.error 1
    else Except.ok (pyStrip date)

/-- Modelled from the spec: the AnalystType enumeration lives in
cli/models.py, which is not among the supplied source files. The spec
describes the analyst role set as an enumerated, fixed list of four roles
(market, social, news, fundamentals). -/
inductive AnalystType where
  | market
  | social
  | news
  | fundamentals
deriving DecidableEq, Repr

/-- The ANALYST_ORDER list of utils.py lines 16-21: display label paired
with the analyst value, in source order. -/
def ANALYST_ORDER : List (String × AnalystType) :=
  [("Market Analyst", AnalystType.market),
   ("Social Media Analyst", AnalystType.social),
   ("News Analyst", AnalystType.news),
   ("Fundamentals Analyst", AnalystType.fundamentals)]

/-- The select_analysts prompt (utils.py lines 77-100): exit(1) when the
checkbox response is None or the empty list (Python falsy), otherwise
return the selected list. -/
def select_analysts (resp : Option (List AnalystType)) : Except Nat (List AnalystType) :=
  match resp with
  | none => Except.error 1
  | some choices =>
    if choices = [] then Except.error 1
    else Except.ok choices

/-- The DEPTH_OPTIONS list of select_research_depth (utils.py lines 107-111). -/
def DEPTH_OPTIONS : List (String × Nat) :=
  [("Shallow - Quick research, few debate and strategy discussion rounds", 1),
   ("Medium - Middle ground, moderate debate rounds and strategy discussion", 3),
   ("Deep - Comprehensive research, in depth debate and strategy discussion", 5)]

/-- The select_research_depth prompt (utils.py lines 103-132): exit(1) only
when the response is None, otherwise return the chosen value. -/
def select_research_depth (resp : Option Nat) : Except Nat Nat :=
  match resp with
  | none => Except.error 1
  | some choice => Except.ok choice

/-- Modelled from the spec: saved configurations come from
cli/config_manager (select_saved_config, list_configs), which is not among
the supplied source files; the spec treats it as an opaque collaborator
returning a configuration-shaped mapping. Only the two model entries read
through dict.get in utils.py are represented. -/
structure SavedConfig where
  quick_think_llm : Option String := none
  deep_think_llm : Option String := none
deriving DecidableEq, Repr

/-- Metadata dictionaries attached to provider selection results. Exactly
four dict shapes occur in utils.py: a record whose type field is default,
one whose type field is preset, the custom record carrying the two model
names, and the saved record carrying a saved configuration. -/
inductive Metadata where
  | mdDefault
  | mdPreset
  | mdCustomOpenai (quick_model deep_model : String)
  | mdSavedConfig (config : SavedConfig)
deriving DecidableEq, Repr

/-- Value of the type key of a metadata dictionary. -/
def Metadata.typeField : Metadata → String
  | .mdDefault => "default"
  | .mdPreset => "preset"
  | .mdCustomOpenai _ _ => "custom_openai"
  | .mdSavedConfig _ => "saved_config"

/-- Responses of the three text prompts of get_custom_openai_config. -/
structure CustomOpenAIResponses where
  url : Option String
  quickModel : Option String
  deepModel : Option String

/-- The get_custom_openai_config prompts (utils.py lines 197-238): exit(1)
when the URL response is falsy, then exit(1) when either model-name
response is falsy, otherwise return the custom provider triple. -/
def get_custom_openai_config (r : CustomOpenAIResponses) : Except Nat (String × String × Metadata) :=
  match r.url with
  | none => Except.error 1
  | some u =>
    if u == "" then Except.error 1
    else
      match r.quickModel, r.deepModel with
      | some q, some d =>
        if q == "" || d == "" then Except.error 1
        else Except.ok ("custom_openai", u, Metadata.mdCustomOpenai q d)
      | _, _ => Except.error 1

/-- The BASE_URLS provider option list (utils.py lines 152-160). Each
metadata dict literal in that list holds exactly one key, type, so the
third component records that type tag. -/
def BASE_URLS : List (String × String × String) :=
  [("Default Config", "default", "default"),
   ("OpenAI", "https://api.openai.com/v1", "preset"),
   ("Custom OpenAI Compatible", "custom_openai", "custom_openai"),
   ("Anthropic", "https://api.anthropic.com/", "preset"),
   ("Google", "https://generativelanguage.googleapis.com/v1", "preset"),
   ("Openrouter", "https://openrouter.ai/api/v1", "preset"),
   ("Ollama", "http://localhost:11434/v1", "preset")]

/-- The part of select_llm_provider after the saved-configuration block
(utils.py lines 151-194): the BASE_URLS select prompt and the dispatch on
the metadata type of the chosen entry. -/
def selectProviderChoice (choiceResp : Option (String × String × String))
    (customResp : CustomOpenAIResponses) : Except Nat (String × String × Metadata) :=
  match choiceResp with
  | none => Except.error 1
  | some (display_name, url, metadataType) =>
    if metadataType == "default" then
      Except.ok ("default", "default", Metadata.mdDefault)
    else if metadataType == "custom_openai" then
      get_custom_openai_config customResp
    else
      Except.ok (display_name, url, Metadata.mdPreset)

/-- The select_llm_provider prompt sequence (utils.py lines 135-194).
Arguments model, in order: whether list_configs() returned a non-empty
collection, the response of the saved-configuration confirm prompt, the
result of select_saved_config(), the response of the provider select
prompt, and the responses of the custom-OpenAI sub-prompts. A truthy
confirm response followed by a truthy saved configuration returns the
saved triple; otherwise control falls through to selectProviderChoice. -/
def select_llm_provider (hasSavedConfigs : Bool) (useSavedResp : Option Bool)
    (savedSel : Option SavedConfig)
    (choiceResp : Option (String × String × String))
    (customResp : CustomOpenAIResponses) : Except Nat (String × String × Metadata) :=
  if hasSavedConfigs && useSavedResp == some true then
    match savedSel with
    | some cfg => Except.ok ("saved_config", "saved_config", Metadata.mdSavedConfig cfg)
    | none => selectProviderChoice choiceResp customResp
  else selectProviderChoice choiceResp customResp

/- ------------------------------------------------------------------
   src/tradingagents/default_config.py
   ------------------------------------------------------------------ -/

/-- Values stored in a configuration dictionary: strings, integers and
booleans, as in default_config.py. -/
inductive ConfigValue where
  | s (v : String)
  | n (v : Nat)
  | b (v : Bool)
deriving DecidableEq, Repr

/-- Default quick-thinking model literal of default_config.py. -/
def quick_think_llm_default : String := "doubao-seed-1-6-flash-250615"

/-- Default deep-thinking model literal of default_config.py. -/
def deep_think_llm_default : String := "deepseek-r1-250528"

/-- The DEFAULT_CONFIG dictionary of default_config.py lines 3-23,
parameterised by the absolute project directory computed from the module
path and by the process environment (os.getenv). Keys appear in source
order; os.path.join of the project directory and the relative cache path
is modelled as slash concatenation. -/
def DEFAULT_CONFIG (projectDir : String) (env : String → Option String) :
    List (String × ConfigValue) :=
  [("project_dir", ConfigValue.s projectDir),
   ("results_dir", ConfigValue.s ((env "TRADINGAGENTS_RESULTS_DIR").getD "./results")),
   ("data_dir", ConfigValue.s "/Users/yluo/Documents/Code/ScAI/FR1-data"),
   ("data_cache_dir", ConfigValue.s (projectDir ++ "/dataflows/data_cache")),
   ("llm_provider", ConfigValue.s "openai"),
   ("deep_think_llm", ConfigValue.s deep_think_llm_default),
   ("quick_think_llm", ConfigValue.s quick_think_llm_default),
   ("backend_url", ConfigValue.s "https://ark.cn-beijing.volces.com/api/v3"),
   ("max_debate_rounds", ConfigValue.n 1),
   ("max_risk_discuss_rounds", ConfigValue.n 1),
   ("max_recur_limit", ConfigValue.n 1000),
   ("online_tools", ConfigValue.b true)]

/- ------------------------------------------------------------------
   Model selection, utils.py lines 241-398.
   ------------------------------------------------------------------ -/

/-- The SHALLOW_AGENT_OPTIONS table of select_shallow_thinking_agent
(utils.py lines 262-289): provider key to list of display and model name. -/
def SHALLOW_AGENT_OPTIONS : List (String × List (String × String)) :=
  [("openai",
    [("GPT-4o-mini - Fast and efficient for quick tasks", "gpt-4o-mini"),
     ("GPT-4.1-nano - Ultra-lightweight model for basic operations", "gpt-4.1-nano"),
     ("GPT-4.1-mini - Compact model with good performance", "gpt-4.1-mini"),
     ("GPT-4o - Standard model with solid capabilities", "gpt-4o")]),
   ("anthropic",
    [("Claude Haiku 3.5 - Fast inference and standard capabilities", "claude-3-5-haiku-latest"),
     ("Claude Sonnet 3.5 - Highly capable standard model", "claude-3-5-sonnet-latest"),
     ("Claude Sonnet 3.7 - Exceptional hybrid reasoning and agentic capabilities", "claude-3-7-sonnet-latest"),
     ("Claude Sonnet 4 - High performance and excellent reasoning", "claude-sonnet-4-0")]),
   ("google",
    [("Gemini 2.0 Flash-Lite - Cost efficiency and low latency", "gemini-2.0-flash-lite"),
     ("Gemini 2.0 Flash - Next generation features, speed, and thinking", "gemini-2.0-flash"),
     ("Gemini 2.5 Flash - Adaptive thinking, cost efficiency", "gemini-2.5-flash-preview-05-20")]),
   ("openrouter",
    [("Meta: Llama 4 Scout", "meta-llama/llama-4-scout:free"),
     ("Meta: Llama 3.3 8B Instruct - A lightweight and ultra-fast variant of Llama 3.3 70B", "meta-llama/llama-3.3-8b-instruct:free"),
     ("google/gemini-2.0-flash-exp:free - Gemini Flash 2.0 offers a significantly faster time to first token", "google/gemini-2.0-flash-exp:free")]),
   ("ollama",
    [("llama3.1 local", "llama3.1"),
     ("llama3.2 local", "llama3.2")])]

/-- The DEEP_AGENT_OPTIONS table of select_deep_thinking_agent
(utils.py lines 341-372). -/
def DEEP_AGENT_OPTIONS : List (String × List (String × String)) :=
  [("openai",
    [("GPT-4.1-nano - Ultra-lightweight model for basic operations", "gpt-4.1-nano"),
     ("GPT-4.1-mini - Compact model with good performance", "gpt-4.1-mini"),
     ("GPT-4o - Standard model with solid capabilities", "gpt-4o"),
     ("o4-mini - Specialized reasoning model (compact)", "o4-mini"),
     ("o3-mini - Advanced reasoning model (lightweight)", "o3-mini"),
     ("o3 - Full advanced reasoning model", "o3"),
     ("o1 - Premier reasoning and problem-solving model", "o1")]),
   ("anthropic",
    [("Claude Haiku 3.5 - Fast inference and standard capabilities", "claude-3-5-haiku-latest"),
     ("Claude Sonnet 3.5 - Highly capable standard model", "claude-3-5-sonnet-latest"),
     ("Claude Sonnet 3.7 - Exceptional hybrid reasoning and agentic capabilities", "claude-3-7-sonnet-latest"),
     ("Claude Sonnet 4 - High performance and excellent reasoning", "claude-sonnet-4-0"),
     ("Claude Opus 4 - Most powerful Anthropic model", "\tclaude-opus-4-0")]),
   ("google",
    [("Gemini 2.0 Flash-Lite - Cost efficiency and low latency", "gemini-2.0-flash-lite"),
     ("Gemini 2.0 Flash - Next generation features, speed, and thinking", "gemini-2.0-flash"),
     ("Gemini 2.5 Flash - Adaptive thinking, cost efficiency", "gemini-2.5-flash-preview-05-20"),
     ("Gemini 2.5 Pro", "gemini-2.5-pro-preview-06-05")]),
   ("openrouter",
    [("DeepSeek V3 - a 685B-parameter, mixture-of-experts model", "deepseek/deepseek-chat-v3-0324:free"),
     ("Deepseek - latest iteration of the flagship chat model family from the DeepSeek team.", "deepseek/deepseek-chat-v3-0324:free")]),
   ("ollama",
    [("llama3.1 local", "llama3.1"),
     ("qwen3", "qwen3")])]

/-- The select_shallow_thinking_agent function (utils.py lines 241-317).
The provider_info argument is the triple produced by select_llm_provider;
resp is the response of the model select prompt reached only on the
preset path. Metadata of type default returns the default quick model,
custom_openai returns the quick model carried in the metadata,
saved_config returns the saved value with the default as dict.get
fallback; otherwise the lowercased provider label is looked up in
SHALLOW_AGENT_OPTIONS, exiting with code 1 when absent, and the prompt
response is returned, exiting with code 1 when it is None. -/
def select_shallow_thinking_agent (provider_info : String × String × Metadata)
    (resp : Option String) : Except Nat String :=
  match provider_info with
  | (provider, _, metadata) =>
    match metadata with
    | Metadata.mdDefault => Except.ok quick_think_llm_default
    | Metadata.mdCustomOpenai q _ => Except.ok q
    | Metadata.mdSavedConfig cfg => Except.ok (cfg.quick_think_llm.getD quick_think_llm_default)
    | Metadata.mdPreset =>
      match (SHALLOW_AGENT_OPTIONS.lookup (pyLower provider)) with
      | none => Except.error 1
      | some _ =>
        match resp with
        | none => Except.error 1
        | some choice => Except.ok choice

/-- The select_deep_thinking_agent function (utils.py lines 320-398),
structured exactly as select_shallow_thinking_agent but over the deep
model table and the deep metadata fields. -/
def select_deep_thinking_agent (provider_info : String × String × Metadata)
    (resp : Option String) : Except Nat String :=
  match provider_info with
  | (provider, _, metadata) =>
    match metadata with
    | Metadata.mdDefault => Except.ok deep_think_llm_default
    | Metadata.mdCustomOpenai _ d => Except.ok d
    | Metadata.mdSavedConfig cfg => Except.ok (cfg.deep_think_llm.getD deep_think_llm_default)
    | Metadata.mdPreset =>
      match (DEEP_AGENT_OPTIONS.lookup (pyLower provider)) with
      | none => Except.error 1
      | some _ =>
        match resp with
        | none => Except.error 1
        | some choice => Except.ok choice

/- ------------------------------------------------------------------
   src/main.py, lines 5-11: custom configuration assembly.
   ------------------------------------------------------------------ -/

/-- Python dict item assignment on an association list: an existing key
keeps its position and receives the new value, a new key is appended. -/
def pySetItem (d : List (String × ConfigValue)) (k : String) (v : ConfigValue) :
    List (String × ConfigValue) :=
  if d.any (fun kv => kv.fst == k) then
    d.map (fun kv => if kv.fst == k then (k, v) else kv)
  else d ++ [(k, v)]

/-- The key-value assignments performed on the copied configuration in
main.py lines 6-11, in statement order. -/
def mainOverrides : List (String × ConfigValue) :=
  [("llm_provider", ConfigValue.s "openai"),
   ("backend_url", ConfigValue.s "https://ark.cn-beijing.volces.com/api/v3"),
   ("deep_think_llm", ConfigValue.s "deepseek-r1-250528"),
   ("quick_think_llm", ConfigValue.s "doubao-seed-1-6-flash-250615"),
   ("max_debate_rounds", ConfigValue.n 1),
   ("online_tools", ConfigValue.b true)]

/-- Keys assigned in main.py lines 6-11. -/
def mainOverrideKeys : List String := mainOverrides.map Prod.fst

/-- The configuration assembly of main.py lines 5-11: DEFAULT_CONFIG is
copied and the assignments of mainOverrides are applied to the copy in
order. The result pairs the DEFAULT_CONFIG dictionary as it stands after
the assembly with the assembled copy. -/
def mainAssembly (projectDir : String) (env : String → Option String) :
    List (String × ConfigValue) × List (String × ConfigValue) :=
  let DEFAULT := DEFAULT_CONFIG projectDir env
  let config := DEFAULT
  (DEFAULT, mainOverrides.foldl (fun c kv => pySetItem c kv.fst kv.snd) config)

/- ------------------------------------------------------------------
   Helper lemmas about the Python string model.
   ------------------------------------------------------------------ -/

/-- The head of a dropWhile result never satisfies the dropped predicate. -/
theorem head_of_dropWhile {α : Type} (p : α → Bool) (l : List α) (c : α)
    (h : (l.dropWhile p).head? = some c) : p c = false := by
  have hd := List.head?_dropWhile_not p l
  rw [h] at hd
  exact hd

/-- The first character of a stripped character list is not whitespace. -/
theorem pyStripList_head (l : List Char) (c : Char)
    (h : (pyStripList l).head? = some c) : pyIsSpace c = false := by
  unfold pyStripList at h
  have hsuf : ((l.dropWhile pyIsSpace).reverse.dropWhile pyIsSpace) <:+
      (l.dropWhile pyIsSpace).reverse := List.dropWhile_suffix _
  have hpre : ((l.dropWhile pyIsSpace).reverse.dropWhile pyIsSpace).reverse <+:
      (l.dropWhile pyIsSpace).reverse.reverse := List.reverse_prefix.mpr hsuf
  rw [List.reverse_reverse] at hpre
  obtain ⟨t, ht⟩ := hpre
  have hl1 : (l.dropWhile pyIsSpace).head? = some c := by
    rw [← ht, List.head?_append, h]
    rfl
  exact head_of_dropWhile pyIsSpace l c hl1

/-- The last character of a stripped character list is not whitespace. -/
theorem pyStripList_getLast (l : List Char) (c : Char)
    (h : (pyStripList l).getLast? = some c) : pyIsSpace c = false := by
  unfold pyStripList at h
  rw [List.getLast?_reverse] at h
  exact head_of_dropWhile pyIsSpace _ c h

/-- In the uppercase branch the character code drops by 32. -/
theorem pyUpperChar_toNat (c : Char) (h : 97 ≤ c.toNat ∧ c.toNat ≤ 122) :
    (pyUpperChar c).toNat = c.toNat - 32 := by
  simp [pyUpperChar, h]
  rfl

/-- Outside the lowercase ASCII range pyUpperChar is the identity. -/
theorem pyUpperChar_eq_self (c : Char) (h : ¬(97 ≤ c.toNat ∧ c.toNat ≤ 122)) :
    pyUpperChar c = c := by
  simp [pyUpperChar, h]

/-- Uppercasing never yields an ASCII lowercase letter. -/
theorem pyUpperChar_not_lower (c : Char) : isLowerAscii (pyUpperChar c) = false := by
  by_cases h : 97 ≤ c.toNat ∧ c.toNat ≤ 122
  · have ht := pyUpperChar_toNat c h
    simp only [isLowerAscii, ht, Bool.and_eq_false_iff, decide_eq_false_iff_not, not_le]
    omega
  · rw [pyUpperChar_eq_self c h]
    simp only [isLowerAscii, Bool.and_eq_false_iff, decide_eq_false_iff_not, not_le]
    omega

/-- Uppercasing does not change whether a character is whitespace. -/
theorem pyIsSpace_pyUpperChar (c : Char) : pyIsSpace (pyUpperChar c) = pyIsSpace c := by
  by_cases h : 97 ≤ c.toNat ∧ c.toNat ≤ 122
  · have ht := pyUpperChar_toNat c h
    have h1 : pyIsSpace (pyUpperChar c) = false := by
      simp only [pyIsSpace, ht, Bool.or_eq_false_iff, beq_eq_false_iff_ne, ne_eq]
      omega
    have h2 : pyIsSpace c = false := by
      simp only [pyIsSpace, Bool.or_eq_false_iff, beq_eq_false_iff_ne, ne_eq]
      omega
    rw [h1, h2]
  · rw [pyUpperChar_eq_self c h]

/-- Strings with no whitespace at either end. -/
def noSurroundingSpace (s : String) : Bool :=
  (match s.data.head? with
   | some c => !(pyIsSpace c)
   | none => true) &&
  (match s.data.getLast? with
   | some c => !(pyIsSpace c)
   | none => true)

/-- Strings containing no ASCII lowercase letter. -/
def noLowerAscii (s : String) : Bool := s.data.all (fun c => !(isLowerAscii c))

/-- A stripped-then-uppercased string has no surrounding whitespace. -/
theorem noSurroundingSpace_of_upper_strip (t : String) :
    noSurroundingSpace (pyUpper (pyStrip t)) = true := by
  unfold noSurroundingSpace pyUpper pyStrip
  apply Bool.and_eq_true_iff.mpr
  constructor
  · rw [show (String.mk ((String.mk (pyStripList t.data)).data.map pyUpperChar)).data
        = (pyStripList t.data).map pyUpperChar from rfl]
    rw [List.head?_map]
    cases hh : (pyStripList t.data).head? with
    | none => rfl
    | some c =>
      have := pyStripList_head t.data c hh
      simp [pyIsSpace_pyUpperChar, this]
  · rw [show (String.mk ((String.mk (pyStripList t.data)).data.map pyUpperChar)).data
        = (pyStripList t.data).map pyUpperChar from rfl]
    rw [List.getLast?_map]
    cases hh : (pyStripList t.data).getLast? with
    | none => rfl
    | some c =>
      have := pyStripList_getLast t.data c hh
      simp [pyIsSpace_pyUpperChar, this]

/-- An uppercased string has no ASCII lowercase letter. -/
theorem noLowerAscii_of_upper (t : String) : noLowerAscii (pyUpper t) = true := by
  unfold noLowerAscii pyUpper
  rw [show (String.mk (t.data.map pyUpperChar)).data = t.data.map pyUpperChar from rfl]
  rw [List.all_map]
  apply List.all_eq_true.mpr
  intro c _
  simp [pyUpperChar_not_lower]

/- ------------------------------------------------------------------
   Claim theorems.
   ------------------------------------------------------------------ -/

/-- C1: the date validator used by get_analysis_date accepts a string if
and only if it matches the anchored date pattern and strptime parses it as
a calendar date in format Y-m-d, and every string returned by
get_analysis_date satisfies both conditions (under the questionary
contract that a submitted response passed the validator on its stripped
form). -/
theorem validate_date_spec :
    (∀ s : String, validate_date s = (dateRegexMatch s && strptimeOk s)) ∧
    (∀ (resp : Option String) (out : String),
      (∀ t, resp = some t → validate_date (pyStrip t) = true) →
      get_analysis_date resp = Except.ok out →
      dateRegexMatch out = true ∧ strptimeOk out = true) := by
  constructor
  · intro s
    unfold validate_date
    cases h : dateRegexMatch s <;> simp [h]
  · intro resp out hcontract hok
    match resp with
    | none => exact absurd hok (by simp [get_analysis_date])
    | some date =>
      rw [show get_analysis_date (some date)
          = if date == "" then Except.error 1 else Except.ok (pyStrip date) from rfl] at hok
      by_cases hd : (date == "") = true
      · rw [if_pos hd] at hok
        exact absurd hok (by simp)
      · rw [if_neg hd] at hok
        have hout : pyStrip date = out := by
          simpa using hok
        have hv := hcontract date rfl
        rw [hout] at hv
        unfold validate_date at hv
        cases hr : dateRegexMatch out with
        | false => rw [hr] at hv; simp at hv
        | true =>
          rw [hr] at hv
          simp only [Bool.not_true, Bool.false_eq_true, if_false] at hv
          exact ⟨rfl, hv⟩

/-- C1 witness: a concrete accepted input. -/
theorem validate_date_spec_witness :
    validate_date "2024-01-15" = (dateRegexMatch "2024-01-15" && strptimeOk "2024-01-15") ∧
    (dateRegexMatch (pyStrip " 2024-01-15 ") = true ∧ strptimeOk (pyStrip " 2024-01-15 ") = true) :=
  ⟨validate_date_spec.1 "2024-01-15",
   validate_date_spec.2 (some " 2024-01-15 ") (pyStrip " 2024-01-15 ")
     (by intro t ht; cases ht; decide) rfl⟩

/-- C2: every prompt function of utils.py maps an empty or cancelled
response (None, the empty string for text prompts, the empty list for the
checkbox) to process termination with exit status 1 rather than a
returned value. -/
theorem prompt_cancel_exits :
    get_ticker none = Except.error 1 ∧
    get_ticker (some "") = Except.error 1 ∧
    get_analysis_date none = Except.error 1 ∧
    get_analysis_date (some "") = Except.error 1 ∧
    select_analysts none = Except.error 1 ∧
    select_analysts (some []) = Except.error 1 ∧
    select_research_depth none = Except.error 1 ∧
    select_llm_provider false none none none ⟨none, none, none⟩ = Except.error 1 ∧
    select_llm_provider true (some true) none none ⟨none, none, none⟩ = Except.error 1 ∧
    get_custom_openai_config ⟨none, none, none⟩ = Except.error 1 ∧
    get_custom_openai_config ⟨some "", some "m1", some "m2"⟩ = Except.error 1 ∧
    get_custom_openai_config ⟨some "https://u", none, none⟩ = Except.error 1 ∧
    get_custom_openai_config ⟨some "https://u", some "", some "m2"⟩ = Except.error 1 ∧
    get_custom_openai_config ⟨some "https://u", some "m1", some ""⟩ = Except.error 1 ∧
    select_shallow_thinking_agent ("OpenAI", "https://api.openai.com/v1", Metadata.mdPreset) none
      = Except.error 1 ∧
    select_deep_thinking_agent ("OpenAI", "https://api.openai.com/v1", Metadata.mdPreset) none
      = Except.error 1 :=
  ⟨rfl, rfl, rfl, rfl, rfl, rfl, rfl, rfl, rfl, rfl, rfl, rfl, rfl, rfl, rfl, rfl⟩

/-- C3: DEFAULT_CONFIG holds exactly the twelve documented keys in source
order, with llm_provider openai, max_debate_rounds 1,
max_risk_discuss_rounds 1, max_recur_limit 1000 and online_tools true,
for every project directory and environment. -/
theorem default_config_keys_values :
    ∀ (projectDir : String) (env : String → Option String),
      (DEFAULT_CONFIG projectDir env).map Prod.fst =
        ["project_dir", "results_dir", "data_dir", "data_cache_dir",
         "llm_provider", "deep_think_llm", "quick_think_llm", "backend_url",
         "max_debate_rounds", "max_risk_discuss_rounds", "max_recur_limit",
         "online_tools"] ∧
      (DEFAULT_CONFIG projectDir env).lookup "llm_provider" = some (ConfigValue.s "openai") ∧
      (DEFAULT_CONFIG projectDir env).lookup "max_debate_rounds" = some (ConfigValue.n 1) ∧
      (DEFAULT_CONFIG projectDir env).lookup "max_risk_discuss_rounds" = some (ConfigValue.n 1) ∧
      (DEFAULT_CONFIG projectDir env).lookup "max_recur_limit" = some (ConfigValue.n 1000) ∧
      (DEFAULT_CONFIG projectDir env).lookup "online_tools" = some (ConfigValue.b true) := by
  intro projectDir env
  exact ⟨rfl, rfl, rfl, rfl, rfl, rfl⟩

/-- C4: provider metadata of type default, custom_openai or saved_config
makes both model selectors return without consulting the preset tables or
the model prompt: the result is independent of the provider label and of
the prompt response, and equals the DEFAULT_CONFIG model, the model
carried in the metadata, or the saved value respectively. -/
theorem model_selection_short_circuit :
    ∀ (provider url q d : String) (cfg : SavedConfig) (resp : Option String)
      (projectDir : String) (env : String → Option String),
      select_shallow_thinking_agent (provider, url, Metadata.mdDefault) resp
        = Except.ok quick_think_llm_default ∧
      select_deep_thinking_agent (provider, url, Metadata.mdDefault) resp
        = Except.ok deep_think_llm_default ∧
      (DEFAULT_CONFIG projectDir env).lookup "quick_think_llm"
        = some (ConfigValue.s quick_think_llm_default) ∧
      (DEFAULT_CONFIG projectDir env).lookup "deep_think_llm"
        = some (ConfigValue.s deep_think_llm_default) ∧
      select_shallow_thinking_agent (provider, url, Metadata.mdCustomOpenai q d) resp
        = Except.ok q ∧
      select_deep_thinking_agent (provider, url, Metadata.mdCustomOpenai q d) resp
        = Except.ok d ∧
      select_shallow_thinking_agent (provider, url, Metadata.mdSavedConfig cfg) resp
        = Except.ok (cfg.quick_think_llm.getD quick_think_llm_default) ∧
      select_deep_thinking_agent (provider, url, Metadata.mdSavedConfig cfg) resp
        = Except.ok (cfg.deep_think_llm.getD deep_think_llm_default) := by
  intro provider url q d cfg resp projectDir env
  exact ⟨rfl, rfl, rfl, rfl, rfl, rfl, rfl, rfl⟩

/-- C5: a preset provider whose lowercased label is not a key of the model
lookup tables makes both selectors terminate with exit status 1, with no
fallback model. -/
theorem unknown_provider_exits :
    ∀ (provider url : String) (resp : Option String),
      SHALLOW_AGENT_OPTIONS.lookup (pyLower provider) = none →
      DEEP_AGENT_OPTIONS.lookup (pyLower provider) = none →
      select_shallow_thinking_agent (provider, url, Metadata.mdPreset) resp = Except.error 1 ∧
      select_deep_thinking_agent (provider, url, Metadata.mdPreset) resp = Except.error 1 := by
  intro provider url resp h1 h2
  constructor
  · show (match SHALLOW_AGENT_OPTIONS.lookup (pyLower provider) with
      | none => Except.error 1
      | some _ =>
        match resp with
        | none => Except.error 1
        | some choice => Except.ok choice) = Except.error 1
    rw [h1]
  · show (match DEEP_AGENT_OPTIONS.lookup (pyLower provider) with
      | none => Except.error 1
      | some _ =>
        match resp with
        | none => Except.error 1
        | some choice => Except.ok choice) = Except.error 1
    rw [h2]

/-- C5 witness: the provider label DeepSeek is not a table key. -/
theorem unknown_provider_exits_witness :
    select_shallow_thinking_agent ("DeepSeek", "https://api.deepseek.com", Metadata.mdPreset) none
      = Except.error 1 ∧
    select_deep_thinking_agent ("DeepSeek", "https://api.deepseek.com", Metadata.mdPreset) none
      = Except.error 1 :=
  unknown_provider_exits "DeepSeek" "https://api.deepseek.com" none rfl rfl

/-- C6: the analyst choice list offered by select_analysts is exactly
market, social, news, fundamentals in that order, and every list the
function returns rather than exiting is non-empty and drawn from those
four roles. -/
theorem analyst_selection_spec :
    ANALYST_ORDER.map Prod.snd =
      [AnalystType.market, AnalystType.social, AnalystType.news, AnalystType.fundamentals] ∧
    ∀ (resp : Option (List AnalystType)) (chosen : List AnalystType),
      select_analysts resp = Except.ok chosen →
      chosen ≠ [] ∧ ∀ a ∈ chosen, a ∈ ANALYST_ORDER.map Prod.snd := by
  constructor
  · rfl
  · intro resp chosen h
    match resp with
    | none => exact absurd h (by simp [select_analysts])
    | some cs =>
      rw [show select_analysts (some cs)
          = if cs = [] then Except.error 1 else Except.ok cs from rfl] at h
      by_cases hc : cs = []
      · rw [if_pos hc] at h
        exact absurd h (by simp)
      · rw [if_neg hc] at h
        have hcs : cs = chosen := by simpa using h
        subst hcs
        refine ⟨hc, ?_⟩
        intro a _
        cases a <;> simp [ANALYST_ORDER]

/-- C6 witness: selecting only the market analyst. -/
theorem analyst_selection_spec_witness :
    [AnalystType.market] ≠ [] ∧
    ∀ a ∈ [AnalystType.market], a ∈ ANALYST_ORDER.map Prod.snd :=
  analyst_selection_spec.2 (some [AnalystType.market]) [AnalystType.market] rfl

/-- Unfolding of List.lookup on a cons cell as an if-then-else. -/
theorem lookup_cons_if (a k : String) (v : ConfigValue) (t : List (String × ConfigValue)) :
    List.lookup a ((k, v) :: t) = if a == k then some v else List.lookup a t := by
  cases h : a == k <;> simp [List.lookup, h]

/-- C7: DEFAULT_CONFIG depends on the environment only through
TRADINGAGENTS_RESULTS_DIR, which sets results_dir with fallback
./results; every other entry is unchanged under any change of
environment, and data_dir is the hard-coded absolute path of one
developer's machine. -/
theorem default_config_env_reads :
    (∀ (projectDir : String) (env envAlt : String → Option String),
      env "TRADINGAGENTS_RESULTS_DIR" = envAlt "TRADINGAGENTS_RESULTS_DIR" →
      DEFAULT_CONFIG projectDir env = DEFAULT_CONFIG projectDir envAlt) ∧
    (∀ (projectDir : String) (env : String → Option String),
      (DEFAULT_CONFIG projectDir env).lookup "results_dir" =
        some (ConfigValue.s ((env "TRADINGAGENTS_RESULTS_DIR").getD "./results"))) ∧
    (∀ (projectDir : String) (env envAlt : String → Option String) (k : String),
      k ≠ "results_dir" →
      (DEFAULT_CONFIG projectDir env).lookup k = (DEFAULT_CONFIG projectDir envAlt).lookup k) ∧
    (∀ (projectDir : String) (env : String → Option String),
      (DEFAULT_CONFIG projectDir env).lookup "data_dir" =
        some (ConfigValue.s "/Users/yluo/Documents/Code/ScAI/FR1-data") ∧
      "/Users/yluo/Documents/Code/ScAI/FR1-data".data.head? = some (Char.ofNat 47)) := by
  refine ⟨?_, ?_, ?_, ?_⟩
  · intro projectDir env envAlt h
    unfold DEFAULT_CONFIG
    rw [h]
  · intro projectDir env
    rfl
  · intro projectDir env envAlt k hk
    have hkb : (k == "results_dir") = false := by
      simpa using hk
    simp only [DEFAULT_CONFIG, lookup_cons_if, hkb, Bool.false_eq_true, if_false]
  · intro projectDir env
    exact ⟨rfl, by decide⟩


/-- C7 witness: a concrete environment agreement and a key other than
results_dir. -/
theorem default_config_env_reads_witness :
    DEFAULT_CONFIG "/repo" (fun _ => none) = DEFAULT_CONFIG "/repo" (fun _ => none) ∧
    (DEFAULT_CONFIG "/repo" (fun _ => some "/tmp/out")).lookup "data_dir"
      = (DEFAULT_CONFIG "/repo" (fun _ => none)).lookup "data_dir" :=
  ⟨default_config_env_reads.1 "/repo" (fun _ => none) (fun _ => none) rfl,
   default_config_env_reads.2.2.1 "/repo" (fun _ => some "/tmp/out") (fun _ => none)
     "data_dir" (by decide)⟩

/-- Helper for C8: a successful get_custom_openai_config result always
carries custom_openai metadata with the entered model names. -/
theorem get_custom_openai_config_shape (r : CustomOpenAIResponses) (p u : String) (md : Metadata)
    (h : get_custom_openai_config r = Except.ok (p, u, md)) :
    ∃ q dm, md = Metadata.mdCustomOpenai q dm ∧ p = "custom_openai" := by
  unfold get_custom_openai_config at h
  split at h
  · exact absurd h (by simp)
  · split at h
    · exact absurd h (by simp)
    · split at h
      · split at h
        · exact absurd h (by simp)
        · simp only [Except.ok.injEq, Prod.mk.injEq] at h
          obtain ⟨hp, hu, hmd⟩ := h
          exact ⟨_, _, hmd.symm, hp.symm⟩
      · exact absurd h (by simp)

/-- Helper for C8: the provider-choice dispatch only produces default,
preset or custom_openai metadata. -/
theorem selectProviderChoice_shape (choiceResp : Option (String × String × String))
    (customResp : CustomOpenAIResponses) (p u : String) (md : Metadata)
    (h : selectProviderChoice choiceResp customResp = Except.ok (p, u, md)) :
    (md = Metadata.mdDefault ∧ p = "default" ∧ u = "default") ∨
    md = Metadata.mdPreset ∨
    (∃ q dm, md = Metadata.mdCustomOpenai q dm ∧ p = "custom_openai") := by
  unfold selectProviderChoice at h
  split at h
  · exact absurd h (by simp)
  · split at h
    · simp only [Except.ok.injEq, Prod.mk.injEq] at h
      obtain ⟨hp, hu, hmd⟩ := h
      exact Or.inl ⟨hmd.symm, hp.symm, hu.symm⟩
    · split at h
      · exact Or.inr (Or.inr (get_custom_openai_config_shape customResp p u md h))
      · simp only [Except.ok.injEq, Prod.mk.injEq] at h
        obtain ⟨hp, hu, hmd⟩ := h
        exact Or.inr (Or.inl hmd.symm)

/-- C8: every triple returned by select_llm_provider carries a metadata
record whose type field is one of exactly default, preset, custom_openai
or saved_config, and the triple has the corresponding shape. -/
theorem provider_tuple_metadata_type :
    ∀ (hasSaved : Bool) (useSaved : Option Bool) (savedSel : Option SavedConfig)
      (choiceResp : Option (String × String × String)) (customResp : CustomOpenAIResponses)
      (p u : String) (md : Metadata),
      select_llm_provider hasSaved useSaved savedSel choiceResp customResp
        = Except.ok (p, u, md) →
      (md.typeField = "default" ∨ md.typeField = "preset" ∨
       md.typeField = "custom_openai" ∨ md.typeField = "saved_config") ∧
      ((md = Metadata.mdDefault ∧ p = "default" ∧ u = "default") ∨
       md = Metadata.mdPreset ∨
       (∃ q dm, md = Metadata.mdCustomOpenai q dm ∧ p = "custom_openai") ∨
       (∃ cfg, md = Metadata.mdSavedConfig cfg ∧ p = "saved_config" ∧ u = "saved_config")) := by
  intro hasSaved useSaved savedSel choiceResp customResp p u md h
  refine ⟨by cases md <;> simp [Metadata.typeField], ?_⟩
  unfold select_llm_provider at h
  split at h
  · split at h
    · rename_i cfg
      simp only [Except.ok.injEq, Prod.mk.injEq] at h
      obtain ⟨hp, hu, hmd⟩ := h
      exact Or.inr (Or.inr (Or.inr ⟨cfg, hmd.symm, hp.symm, hu.symm⟩))
    · rcases selectProviderChoice_shape choiceResp customResp p u md h with h1 | h1 | h1
      · exact Or.inl h1
      · exact Or.inr (Or.inl h1)
      · exact Or.inr (Or.inr (Or.inl h1))
  · rcases selectProviderChoice_shape choiceResp customResp p u md h with h1 | h1 | h1
    · exact Or.inl h1
    · exact Or.inr (Or.inl h1)
    · exact Or.inr (Or.inr (Or.inl h1))

/-- C8 witness: choosing the OpenAI preset. -/
theorem provider_tuple_metadata_type_witness :
    (Metadata.typeField Metadata.mdPreset = "default" ∨
     Metadata.typeField Metadata.mdPreset = "preset" ∨
     Metadata.typeField Metadata.mdPreset = "custom_openai" ∨
     Metadata.typeField Metadata.mdPreset = "saved_config") ∧
    ((Metadata.mdPreset = Metadata.mdDefault ∧ ("OpenAI" : String) = "default" ∧
        ("https://api.openai.com/v1" : String) = "default") ∨
     Metadata.mdPreset = Metadata.mdPreset ∨
     (∃ q dm, Metadata.mdPreset = Metadata.mdCustomOpenai q dm ∧
        ("OpenAI" : String) = "custom_openai") ∨
     (∃ cfg, Metadata.mdPreset = Metadata.mdSavedConfig cfg ∧
        ("OpenAI" : String) = "saved_config" ∧
        ("https://api.openai.com/v1" : String) = "saved_config")) :=
  provider_tuple_metadata_type false none none
    (some ("OpenAI", "https://api.openai.com/v1", "preset")) ⟨none, none, none⟩
    "OpenAI" "https://api.openai.com/v1" Metadata.mdPreset rfl

/-- C9: an accepted ticker response is returned stripped and uppercased,
so the returned symbol never has surrounding whitespace or an ASCII
lowercase letter. -/
theorem get_ticker_normalizes :
    (∀ t : String, t ≠ "" → get_ticker (some t) = Except.ok (pyUpper (pyStrip t))) ∧
    (∀ (resp : Option String) (s : String), get_ticker resp = Except.ok s →
      noSurroundingSpace s = true ∧ noLowerAscii s = true) := by
  constructor
  · intro t ht
    have hb : (t == "") = false := by simpa using ht
    show (if t == "" then Except.error 1 else Except.ok (pyUpper (pyStrip t))) = _
    rw [hb]
    simp
  · intro resp s h
    match resp with
    | none => exact absurd h (by simp [get_ticker])
    | some t =>
      rw [show get_ticker (some t)
          = if t == "" then Except.error 1 else Except.ok (pyUpper (pyStrip t)) from rfl] at h
      by_cases ht : (t == "") = true
      · rw [if_pos ht] at h
        exact absurd h (by simp)
      · rw [if_neg ht] at h
        have hs : pyUpper (pyStrip t) = s := by simpa using h
        rw [← hs]
        exact ⟨noSurroundingSpace_of_upper_strip t, noLowerAscii_of_upper (pyStrip t)⟩

/-- C9 witness: a concrete response with surrounding whitespace and
lowercase letters. -/
theorem get_ticker_normalizes_witness :
    get_ticker (some " nvda ") = Except.ok (pyUpper (pyStrip " nvda ")) ∧
    noSurroundingSpace "NVDA" = true ∧ noLowerAscii "NVDA" = true :=
  ⟨get_ticker_normalizes.1 " nvda " (by decide),
   get_ticker_normalizes.2 (some " nvda ") "NVDA" rfl⟩

/-- C10 counterexample: main.py performs six distinct key overrides
(llm_provider, backend_url, deep_think_llm, quick_think_llm,
max_debate_rounds, online_tools), not five. -/
theorem main_overrides_count_counterexample :
    mainOverrideKeys.length = 6 ∧ mainOverrideKeys.Nodup ∧ mainOverrideKeys.length ≠ 5 := by
  decide

/-- C10 amended: assembling the custom configuration in main.py mutates
only a copy of DEFAULT_CONFIG. After the six key overrides the
DEFAULT_CONFIG mapping itself is unchanged, the copy has the same keys,
every key outside the overridden six keeps its default value, and each
overridden key holds the assigned value (which in main.py coincides with
its default). -/
theorem main_config_copy_frame :
    ∀ (projectDir : String) (env : String → Option String),
      (mainAssembly projectDir env).fst = DEFAULT_CONFIG projectDir env ∧
      ((mainAssembly projectDir env).snd).map Prod.fst
        = (DEFAULT_CONFIG projectDir env).map Prod.fst ∧
      (∀ k : String, k ∉ mainOverrideKeys →
        ((mainAssembly projectDir env).snd).lookup k
          = (DEFAULT_CONFIG projectDir env).lookup k) ∧
      (∀ kv ∈ mainOverrides, ((mainAssembly projectDir env).snd).lookup kv.fst = some kv.snd) := by
  intro projectDir env
  have hsnd : (mainAssembly projectDir env).snd = DEFAULT_CONFIG projectDir env := rfl
  refine ⟨rfl, by rw [hsnd], ?_, ?_⟩
  · intro k _
    rw [hsnd]
  · intro kv hkv
    rw [hsnd]
    fin_cases hkv <;> rfl

/-- C10 witness: the data_dir entry of the assembled copy keeps its
default value. -/
theorem main_config_copy_frame_witness :
    ((mainAssembly "/repo" (fun _ => none)).snd).lookup "data_dir"
      = (DEFAULT_CONFIG "/repo" (fun _ => none)).lookup "data_dir" :=
  (main_config_copy_frame "/repo" (fun _ => none)).2.2.1 "data_dir" (by decide)
